import Mathlib

/-
Verification development for the PyMonitorLib utility layer
(src/monitor/lib/utils.py): the subcommand registry (Callbacks.Register),
the process runner (Command), and the readiness waiter (Select) are given
a shallow embedding, and the behavioural claims about them are settled as
theorems.
-/

set_option autoImplicit false
set_option linter.unusedVariables false

namespace MonitorLib

/-- A Python callback object: an identity plus whether the builtin
callable check accepts it. -/
structure Handler where
  id : Nat
  callable : Bool
deriving DecidableEq, Repr

/-- One sub-parser in the argparse tree: its command name and the list of
option strings added to it. -/
structure Subparser where
  name : String
  args : List String
deriving DecidableEq, Repr

/-- The shared argparse sub-parser collection that Register mutates through
add_parser. -/
structure ParserTree where
  subs : List Subparser
deriving DecidableEq, Repr

/-- State of a Callbacks instance: the protected primary command name, the
insertion-ordered name-to-handler mapping, and the shared parser tree. -/
structure CallbacksState where
  command : String
  callbacks : List (String × Handler)
  parsers : ParserTree
deriving DecidableEq, Repr

/-- The duplicate check of Register: the loop over self.callbacks.items()
comparing the new name with each registered key. -/
def hasName (cbs : List (String × Handler)) (name : String) : Bool :=
  cbs.any (fun p => p.1 == name)

/-- Outcome of a Register call. regError embeds raising ExecutorError (the
registration-error type imported from the exceptions module); parserRaise
embeds an exception escaping from parsers.add_parser itself. -/
inductive RegOutcome where
  | ok (parserName : String)
  | regError (msg : String)
  | parserRaise
deriving DecidableEq, Repr

/-- Shallow embedding of Callbacks.Register. Guards run in source order:
the callable check, the protected-name check, the duplicate loop. On
success the mapping is updated first, then add_parser extends the tree and
the config option is attached. The flag addParserRaises is the environment
choice of whether parsers.add_parser itself raises; when it does, the
mapping update has already happened and the exception propagates with that
partial state. Message formatting is simplified to plain concatenation. -/
def Register (st : CallbacksState) (name : String) (cb : Handler)
    (addParserRaises : Bool) : RegOutcome × CallbacksState :=
  if cb.callable = false then
    (RegOutcome.regError "Callback is not callable", st)
  else if name = st.command then
    (RegOutcome.regError ("Cannot register a secondary command: " ++ name), st)
  else if hasName st.callbacks name then
    (RegOutcome.regError ("Command already registered: " ++ name), st)
  else
    let st1 : CallbacksState := { st with callbacks := st.callbacks ++ [(name, cb)] }
    if addParserRaises then
      (RegOutcome.parserRaise, st1)
    else
      let p : Subparser := { name := name, args := ["--config"] }
      (RegOutcome.ok name, { st1 with parsers := { subs := st1.parsers.subs ++ [p] } })

/-- Helper: any failing guard of Register leaves the state untouched and
reports ExecutorError when the name is protected or already present. -/
theorem Register_guard_fail (st : CallbacksState) (name : String) (cb : Handler)
    (apr : Bool) (h : name = st.command ∨ hasName st.callbacks name = true) :
    ∃ msg, Register st name cb apr = (RegOutcome.regError msg, st) := by
  unfold Register
  by_cases hc : cb.callable = false
  · exact ⟨"Callback is not callable", by simp [hc]⟩
  · rcases h with h | h
    · exact ⟨"Cannot register a secondary command: " ++ name, by simp [hc, h]⟩
    · by_cases hn : name = st.command
      · exact ⟨"Cannot register a secondary command: " ++ name, by simp [hc, hn]⟩
      · exact ⟨"Command already registered: " ++ name, by simp [hc, hn, h]⟩

/-- Helper: a successful Register recorded the name in the mapping of the
resulting state. -/
theorem Register_ok_hasName (st : CallbacksState) (name : String) (cb : Handler)
    (apr : Bool) (p : String) (st1 : CallbacksState)
    (h : Register st name cb apr = (RegOutcome.ok p, st1)) :
    hasName st1.callbacks name = true := by
  unfold Register at h
  by_cases hc : cb.callable = false
  · simp [hc] at h
  · by_cases hn : name = st.command
    · simp [hc, hn] at h
    · by_cases hd : hasName st.callbacks name
      · simp [hc, hn, hd] at h
      · by_cases ha : apr
        · simp [hc, hn, hd, ha] at h
        · simp [hc, hn, hd, ha] at h
          have hst : st1.callbacks = st.callbacks ++ [(name, cb)] := by
            rw [← h.2]
          simp [hasName, hst]

/-- C1: a Register call that fails because the name is the protected
primary command or already registered raises before any mutation, leaving
the mapping and the parser tree exactly as they were; in particular, after
a successful registration of a name, a second registration of the same
name fails and leaves the state of the first call unchanged. -/
theorem register_fail_preserves_state :
    (∀ (st : CallbacksState) (name : String) (cb : Handler) (apr : Bool),
      (name = st.command ∨ hasName st.callbacks name = true) →
      ∃ msg, Register st name cb apr = (RegOutcome.regError msg, st)) ∧
    (∀ (st : CallbacksState) (n : String) (h h2 : Handler) (apr apr2 : Bool)
      (p : String) (st1 : CallbacksState),
      Register st n h apr = (RegOutcome.ok p, st1) →
      ∃ msg, Register st1 n h2 apr2 = (RegOutcome.regError msg, st1)) := by
  constructor
  · exact fun st name cb apr h => Register_guard_fail st name cb apr h
  · intro st n h h2 apr apr2 p st1 hok
    exact Register_guard_fail st1 n h2 apr2 (Or.inr (Register_ok_hasName st n h apr p st1 hok))

/-- Witness for C1 at a concrete registry state and name. -/
theorem register_fail_preserves_state_witness :
    ∃ msg,
      Register ⟨"run", [], ⟨[]⟩⟩ "run" ⟨0, true⟩ false =
        (RegOutcome.regError msg, ⟨"run", [], ⟨[]⟩⟩) :=
  register_fail_preserves_state.1 ⟨"run", [], ⟨[]⟩⟩ "run" ⟨0, true⟩ false (Or.inl rfl)

/-- C2: for every handler, callable or not, and every add_parser behaviour,
calling Register with the protected primary command name raises
ExecutorError and never succeeds. -/
theorem register_reserved_name_fails (st : CallbacksState) (cb : Handler)
    (apr : Bool) :
    ∃ msg, (Register st st.command cb apr).1 = RegOutcome.regError msg := by
  unfold Register
  by_cases hc : cb.callable = false
  · exact ⟨"Callback is not callable", by simp [hc]⟩
  · exact ⟨"Cannot register a secondary command: " ++ st.command, by simp [hc]⟩

/-- C10: Register updates the mapping before touching the parser tree, so
when every guard passes but add_parser itself raises, the handler stays
registered under the name while the parser tree is unchanged. -/
theorem register_partial_on_addparser_raise (st : CallbacksState) (name : String)
    (cb : Handler) (h1 : cb.callable = true) (h2 : name ≠ st.command)
    (h3 : hasName st.callbacks name = false) :
    Register st name cb true =
      (RegOutcome.parserRaise, { st with callbacks := st.callbacks ++ [(name, cb)] }) := by
  unfold Register
  simp [h1, h2, h3]

/-- Witness for C10 at a concrete registry state and name. -/
theorem register_partial_on_addparser_raise_witness :
    Register ⟨"run", [], ⟨[]⟩⟩ "status" ⟨1, true⟩ true =
      (RegOutcome.parserRaise, ⟨"run", [("status", ⟨1, true⟩)], ⟨[]⟩⟩) :=
  register_partial_on_addparser_raise ⟨"run", [], ⟨[]⟩⟩ "status" ⟨1, true⟩
    rfl (by decide) rfl

/-- The stream a child-process output event was written to. -/
inductive StreamTag where
  | stdout
  | stderr
deriving DecidableEq, Repr

/-- Deterministic model of the child process spawned by Command: the exit
code of the child and the ordered trace of raw output lines it writes,
each tagged with the stream it goes to and carrying its trailing newline
as readline delivers it. -/
structure Child where
  exitCode : Int
  events : List (StreamTag × String)
deriving DecidableEq, Repr

/-- The lines visible on the captured stdout pipe: with the stream-merge
flag set, stderr lines are interleaved in trace order; without it only
stdout lines would appear (that configuration never reaches the pipe, see
Command below). -/
def capturedStream (mergeErr : Bool) (evs : List (StreamTag × String)) : List String :=
  (evs.filter (fun e => mergeErr || e.1 == StreamTag.stdout)).map Prod.snd

/-- The whitespace family the strip call removes, restricted to the ASCII
characters that occur in line-oriented process output. -/
def isWs (c : Char) : Bool :=
  c = ' ' || c = '\t' || c = '\n' || c = '\r'

/-- Strip on the character list: drop whitespace from both ends. -/
def pyStripList (cs : List Char) : List Char :=
  ((cs.dropWhile isWs).reverse.dropWhile isWs).reverse

/-- Embedding of the strip call applied to each line read in the loop. -/
def pyStrip (s : String) : String :=
  ⟨pyStripList s.data⟩

/-- One body of the reading loop: append the stripped line when nonempty. -/
def appendLine (acc : List String) (l : String) : List String :=
  if 0 < (pyStrip l).length then acc ++ [pyStrip l] else acc

/-- The output lines a full uninterrupted drain of raw lines accumulates. -/
def processOutput (lines : List String) : List String :=
  lines.filterMap (fun l => if 0 < (pyStrip l).length then some (pyStrip l) else none)

/-- The reading loop of Command over the captured raw lines. The middle
argument counts how many more lines are consumed before a
KeyboardInterrupt strikes (none while no interrupt is pending). Returns
the accumulated output and whether the loop ended by interruption. -/
def drainLoop : List String → Option Nat → List String → List String × Bool
  | _, some 0, acc => (acc, true)
  | [], _, acc => (acc, false)
  | l :: ls, intr, acc => drainLoop ls (Option.map (fun m => m - 1) intr) (appendLine acc l)

/-- Where a KeyboardInterrupt strikes during a Command call: before the
Popen call completes (the process variable still holds None), or during
the reading loop after consuming k captured lines. -/
inductive InterruptPt where
  | beforeSpawn
  | duringLoop (k : Nat)
deriving DecidableEq, Repr

/-- Result of a Command call: a normal return of the poll value and the
output list, or an uncaught exception of the given type escaping. -/
inductive CmdOutcome where
  | ret (exit : Option Int) (output : List String)
  | raises (exc : String)
deriving DecidableEq, Repr

/-- The poll value observed at the return statement after an interrupt
that consumed k captured lines: the exit code once every line has been
drained (the child has terminated), None while it is still running. -/
def pollAfter (child : Child) (lines : List String) (k : Nat) : Option Int :=
  if lines.length ≤ k then some child.exitCode else none

/-- Shallow embedding of Command. A KeyboardInterrupt before Popen
completes is caught, but the return statement then calls poll on None and
an AttributeError escapes. With the stream-merge flag off, the call passes
os.devnull, a string, as the stderr argument of Popen, which raises
AttributeError inside Popen (a string has no fileno method); that
exception is not in the except clauses and escapes. An OSError from
spawning is re-raised. Otherwise the loop drains the captured stream,
interrupted or not, and the poll value plus accumulated output is
returned. -/
def Command (child : Child) (mergeErr : Bool) (spawnFails : Bool)
    (intr : Option InterruptPt) : CmdOutcome :=
  match intr with
  | some InterruptPt.beforeSpawn => CmdOutcome.raises "AttributeError"
  | some (InterruptPt.duringLoop k) =>
    if mergeErr = false then CmdOutcome.raises "AttributeError"
    else if spawnFails then CmdOutcome.raises "OSError"
    else
      let lines := capturedStream mergeErr child.events
      let r := drainLoop lines (some k) []
      if r.2 then CmdOutcome.ret (pollAfter child lines k) r.1
      else CmdOutcome.ret (some child.exitCode) r.1
  | none =>
    if mergeErr = false then CmdOutcome.raises "AttributeError"
    else if spawnFails then CmdOutcome.raises "OSError"
    else
      let lines := capturedStream mergeErr child.events
      CmdOutcome.ret (some child.exitCode) (drainLoop lines none []).1

/-- Model of the child process the argument vector echo hello spawns: one
stdout line and exit code zero. -/
def echoHelloChild : Child :=
  ⟨0, [(StreamTag.stdout, "hello\n")]⟩

/-- Helper: the interrupted drain accumulates exactly the processed first
k lines, and the interrupt fires while lines remain or right at the end. -/
theorem drainLoop_some_eq (ls : List String) : ∀ (k : Nat) (acc : List String),
    drainLoop ls (some k) acc =
      (acc ++ processOutput (ls.take k), decide (k ≤ ls.length)) := by
  induction ls with
  | nil =>
    intro k acc
    cases k with
    | zero => simp [drainLoop, processOutput]
    | succ k => simp [drainLoop, processOutput]
  | cons l ls ih =>
    intro k acc
    cases k with
    | zero => simp [drainLoop, processOutput]
    | succ k =>
      have hstep : drainLoop (l :: ls) (some (k + 1)) acc =
          drainLoop ls (some k) (appendLine acc l) := by
        simp [drainLoop]
      rw [hstep, ih k (appendLine acc l)]
      have harg : appendLine acc l ++ processOutput (List.take k ls) =
          acc ++ processOutput (List.take (k + 1) (l :: ls)) := by
        simp only [List.take_succ_cons, processOutput, List.filterMap_cons, appendLine]
        by_cases hl : 0 < (pyStrip l).length
        · simp [hl]
        · simp [hl]
      rw [harg]
      simp [Nat.succ_le_succ_iff]

/-- C3: running Command on the echo hello child with the default flags
returns exit code zero and the single trimmed line hello. -/
theorem command_echo_hello :
    Command echoHelloChild true false none = CmdOutcome.ret (some 0) ["hello"] := by
  decide

/-- C4: with the stream-merge flag off, Command never completes normally
for any child, spawn behaviour or interrupt timing: the string os.devnull
passed as the stderr argument makes Popen raise an AttributeError, which
escapes (the docstring instead promises the error output is simply
ignored). -/
theorem command_stderr_false_raises (child : Child) (spawnFails : Bool)
    (intr : Option InterruptPt) :
    Command child false spawnFails intr = CmdOutcome.raises "AttributeError" := by
  cases intr with
  | none => simp [Command]
  | some ip => cases ip <;> simp [Command]

/-- C5: when the OS refuses to spawn the child, Command re-raises the
OSError to the caller instead of returning an exit-code and output pair. -/
theorem command_spawn_failure_raises (child : Child) :
    Command child true true none = CmdOutcome.raises "OSError" := by
  simp [Command]

/-- Counterexample to C6: a KeyboardInterrupt that strikes before Popen
has assigned the process variable is caught, but the return statement then
dereferences None and an AttributeError derived from the interruption
propagates to the caller instead of a partial outcome. -/
theorem command_interrupt_before_spawn_raises :
    Command echoHelloChild true false (some InterruptPt.beforeSpawn) =
      CmdOutcome.raises "AttributeError" := by
  decide

/-- C6 amended: when the interruption strikes after the child has been
spawned, during the reading loop with k captured lines already consumed,
Command swallows the interrupt and returns the partial outcome: the output
accumulated so far together with the current poll value of the child. -/
theorem command_interrupt_during_loop_returns (child : Child) (k : Nat) :
    Command child true false (some (InterruptPt.duringLoop k)) =
      CmdOutcome.ret
        (if (capturedStream true child.events).length ≤ k then some child.exitCode else none)
        (processOutput ((capturedStream true child.events).take k)) := by
  have h := drainLoop_some_eq (capturedStream true child.events) k []
  by_cases hk : k ≤ (capturedStream true child.events).length
  · have hlen : (capturedStream true child.events).length ≤ k ∨
        ¬ (capturedStream true child.events).length ≤ k := em _
    simp [Command, h, hk, pollAfter]
  · have hlt : (capturedStream true child.events).length ≤ k := le_of_not_le hk
    simp [Command, h, hk, pollAfter, hlt]

/-- Behaviour of one call to selector.select in the polling loop: it
either returns the list of descriptors with events (possibly empty), or
raises os.error, or a KeyboardInterrupt strikes during the slice. -/
inductive PollStep where
  | ready (evs : List Nat)
  | osError
  | interrupted

/-- Environment of a Select call: whether one of the selector.register
calls raises os.error (a bad descriptor), and the behaviour of each
successive polling slice. -/
structure SelectEnv where
  registerFails : Bool
  step : Nat → PollStep

/-- How the polling loop of Select ends: normally (by deadline or by a
nonempty result, carrying the last value of res), by an os.error, or by a
KeyboardInterrupt. -/
inductive LoopEnd where
  | normal (res : Option (List Nat))
  | errored
  | interrupted
deriving DecidableEq

/-- Result of a Select call: the returned value (None is the failure
sentinel and also the initial res), whether selector.close ran before
returning, and how many polling slices were performed. -/
structure SelectResult where
  result : Option (List Nat)
  closed : Bool
  polls : Nat
deriving DecidableEq, Repr

/-- The while loop of Select under a slice clock: each select slice takes
a tenth of a second, so the n-th check of the while condition compares
n tenths against the timeout. The loop keeps the last poll result in res,
breaking on a nonempty one; fuel is an upper bound on the iterations and
the zero-fuel fallback mirrors the deadline exit. -/
def selectLoopGo (step : Nat → PollStep) (timeout : ℚ) :
    Nat → Nat → Option (List Nat) → LoopEnd × Nat
  | 0, n, res => (LoopEnd.normal res, n)
  | fuel + 1, n, res =>
    if (n : ℚ) / 10 < timeout then
      match step n with
      | PollStep.osError => (LoopEnd.errored, n + 1)
      | PollStep.interrupted => (LoopEnd.interrupted, n + 1)
      | PollStep.ready evs =>
        if evs = [] then selectLoopGo step timeout fuel (n + 1) (some evs)
        else (LoopEnd.normal (some evs), n + 1)
    else (LoopEnd.normal res, n)

/-- Translation of how the loop ended into the returned value: a normal
end returns res, an os.error or interruption returns None, and in each
case the finally block has closed the selector before returning. -/
def selectFinish (r : LoopEnd × Nat) : SelectResult :=
  match r.1 with
  | LoopEnd.normal res => ⟨res, true, r.2⟩
  | LoopEnd.errored => ⟨none, true, r.2⟩
  | LoopEnd.interrupted => ⟨none, true, r.2⟩

/-- Shallow embedding of Select. A register failure is caught by the
os.error handler and None is returned; otherwise the polling loop runs
and its end is translated by selectFinish. The reader and writer lists
only feed the register calls, whose failure the environment abstracts. -/
def Select (rds wrts : List Nat) (timeout : ℚ) (env : SelectEnv) : SelectResult :=
  if env.registerFails = true then ⟨none, true, 0⟩
  else selectFinish (selectLoopGo env.step timeout ((Int.ceil (timeout * 10)).toNat + 1) 0 none)

/-- Helper: the return translation always records the selector as closed. -/
theorem selectFinish_closed (r : LoopEnd × Nat) : (selectFinish r).closed = true := by
  rcases r with ⟨e, n⟩
  cases e <;> rfl

/-- Helper: with a nonpositive timeout the while condition is false at the
first check, the loop never polls, and the call returns the initial None
with zero slices, whatever the environment does. -/
theorem Select_nonpos_eq (rds wrts : List Nat) (timeout : ℚ) (env : SelectEnv)
    (h : timeout ≤ 0) :
    Select rds wrts timeout env = ⟨none, true, 0⟩ := by
  by_cases hr : env.registerFails = true
  · simp [Select, hr]
  · have hcond : ¬ ((0 : ℚ) < timeout) := not_lt.mpr h
    simp [Select, hr, selectLoopGo, selectFinish, hcond]

/-- Helper: when every slice returns a readiness list and res has already
been assigned, the loop ends normally with an assigned res, whatever the
remaining fuel. -/
theorem selectLoopGo_ready_some (f : Nat → List Nat) (timeout : ℚ) :
    ∀ (fuel n : Nat) (x : List Nat),
      ∃ y, (selectLoopGo (fun m => PollStep.ready (f m)) timeout fuel n (some x)).1 =
        LoopEnd.normal (some y) := by
  intro fuel
  induction fuel with
  | zero => exact fun n x => ⟨x, rfl⟩
  | succ fuel ih =>
    intro n x
    by_cases hc : ((n : ℚ) / 10 < timeout)
    · by_cases he : f n = []
      · simpa [selectLoopGo, hc, he] using ih (n + 1) (f n)
      · exact ⟨f n, by simp [selectLoopGo, hc, he]⟩
    · exact ⟨x, by simp [selectLoopGo, hc]⟩

/-- Counterexample to C7: with timeout zero the deadline is reached with
no OS-level error and no interruption, yet Select returns None, the very
failure sentinel, rather than a distinguishable empty readiness result. -/
theorem select_zero_timeout_failure_sentinel :
    (Select [1] [] 0 ⟨false, fun _ => PollStep.ready []⟩).result = none := by
  rw [Select_nonpos_eq [1] [] 0 ⟨false, fun _ => PollStep.ready []⟩ le_rfl]

/-- C7 amended: whenever at least one polling slice occurs, that is the
timeout is positive under the slice clock, and no OS-level error and no
interruption occur, Select returns an assigned readiness result, possibly
the empty list, which as a non-None value is distinguishable from the
failure sentinel. -/
theorem select_deadline_returns_result (rds wrts : List Nat) (timeout : ℚ)
    (f : Nat → List Nat) (h : 0 < timeout) :
    ∃ l, (Select rds wrts timeout ⟨false, fun n => PollStep.ready (f n)⟩).result = some l := by
  by_cases he : f 0 = []
  · obtain ⟨y, hy⟩ := selectLoopGo_ready_some f timeout
      ((Int.ceil (timeout * 10)).toNat) 1 (f 0)
    rw [he] at hy
    refine ⟨y, ?_⟩
    simp [Select, selectLoopGo, selectFinish, h, he, hy]
  · refine ⟨f 0, ?_⟩
    simp [Select, selectLoopGo, selectFinish, h, he]

/-- Witness for C7 amended at a one-second timeout with never-ready
channels. -/
theorem select_deadline_returns_result_witness :
    (0 : ℚ) < 1 ∧
      ∃ l, (Select [1] [] 1 ⟨false, fun _ => PollStep.ready []⟩).result = some l :=
  ⟨by norm_num, select_deadline_returns_result [1] [] 1 (fun _ => []) (by norm_num)⟩

/-- C8: on every exit path of Select — normal result, deadline, os.error
during register or poll, or interruption — the finally block has closed
the selector before the call returns. -/
theorem select_selector_closed (rds wrts : List Nat) (timeout : ℚ) (env : SelectEnv) :
    (Select rds wrts timeout env).closed = true := by
  by_cases hr : env.registerFails = true
  · simp [Select, hr]
  · simp [Select, hr, selectFinish_closed]

/-- C9: with a nonpositive timeout Select returns None, the same sentinel
that signals failure or interruption, and performs no polling slice at
all, so the caller cannot tell an instantly expired deadline from an
error. -/
theorem select_nonpositive_timeout_none (rds wrts : List Nat) (timeout : ℚ)
    (env : SelectEnv) (h : timeout ≤ 0) :
    (Select rds wrts timeout env).result = none ∧
      (Select rds wrts timeout env).polls = 0 := by
  rw [Select_nonpos_eq rds wrts timeout env h]
  exact ⟨rfl, rfl⟩

/-- Witness for C9 at timeout zero. -/
theorem select_nonpositive_timeout_none_witness :
    (0 : ℚ) ≤ 0 ∧
      ((Select [2] [] 0 ⟨false, fun _ => PollStep.ready []⟩).result = none ∧
        (Select [2] [] 0 ⟨false, fun _ => PollStep.ready []⟩).polls = 0) :=
  ⟨le_rfl, select_nonpositive_timeout_none [2] [] 0 ⟨false, fun _ => PollStep.ready []⟩ le_rfl⟩

end MonitorLib
